import Mathlib

/-!
Shallow embedding of the task query & recurrence engine of the todo service
(backend/src/todo_api: routers/tasks.py, mcp/tools.py, models.py).

Timestamps are modelled as integer minutes since an arbitrary epoch, so the
Python timedelta arithmetic becomes integer addition: one hour = 60, one day
= 1440, one week = 10080, thirty days = 43200.  Task ids (UUIDs in Python)
are modelled as opaque naturals; user ids as strings.  The SQL store is a
list of Task records; SELECT ... WHERE is List.filter, first-match lookup is
List.find?, ORDER BY is a sort by the embedded comparator, OFFSET/LIMIT are
List.drop/List.take, and an in-place session mutation of the row found by a
point lookup is replaceFirst.
-/

namespace TodoApi

/-- Python datetime, in minutes since an arbitrary epoch. -/
abbrev DateTime := Int

/-- Task database model (models.py, class Task). -/
structure Task where
  id : Nat
  user_id : String
  title : String
  description : String
  completed : Bool
  created_at : DateTime
  updated_at : Option DateTime
  priority : String
  tags : List String
  due_date : Option DateTime
  reminder_at : Option DateTime
  recurring : Option String
  recurring_parent_id : Option Nat
deriving DecidableEq, Repr

/-- Response schema for task list (models.py, TaskListResponse). -/
structure TaskListResponse where
  tasks : List Task
  total : Nat
  pending_count : Nat
  completed_count : Nat
deriving DecidableEq, Repr

/-- The status filter literal of list_tasks: "all" | "pending" | "completed". -/
inductive Status where
  | all | pending | completed
deriving DecidableEq, Repr

/-- The sort literal of list_tasks: "due_date" | "priority" | "title" | "created_at". -/
inductive SortKey where
  | due_date | priority | title | created_at
deriving DecidableEq, Repr

/-- The order literal of list_tasks: "asc" | "desc". -/
inductive Order where
  | asc | desc
deriving DecidableEq, Repr

/-- The single error kind raised by the task routes: HTTP 404 "Task not found". -/
inductive Err where
  | notFound
deriving DecidableEq, Repr

/-- Python truthiness of an Optional[str]: None and "" are falsy. -/
def pyTruthyStr : Option String → Bool
  | none => false
  | some s => !(s == "")

/-- Point lookup used by every per-task route:
select(Task).where(Task.id == task_id, Task.user_id == user.id) ... .first(). -/
def findTask (s : List Task) (u : String) (tid : Nat) : Option Task :=
  s.find? fun t => t.id == tid && t.user_id == u

/-- Replace the first record matching the predicate (the ORM session mutates
the single row returned by .first() in place). -/
def replaceFirst (p : Task → Bool) (f : Task → Task) : List Task → List Task
  | [] => []
  | t :: ts => if p t then f t :: ts else t :: replaceFirst p f ts

/-! String helpers.  Python str.lower/str.strip/str.split and SQL
func.lower/LIKE are modelled over the character list of the string. -/

/-- str.lower() / func.lower, as a character list. -/
def toLowerL (s : String) : List Char := s.data.map Char.toLower

/-- str.strip(): drop whitespace from both ends. -/
def trimL (l : List Char) : List Char :=
  ((l.dropWhile Char.isWhitespace).reverse.dropWhile Char.isWhitespace).reverse

/-- str.split(","): split a character list on commas. -/
def splitComma : List Char → List (List Char)
  | [] => [[]]
  | c :: rest =>
    if c = ',' then [] :: splitComma rest
    else
      match splitComma rest with
      | [] => [[c]]
      | g :: gs => (c :: g) :: gs

/-- Whether the first list starts the second. -/
def listStarts : List Char → List Char → Bool
  | [], _ => true
  | _ :: _, [] => false
  | a :: as, b :: bs => a == b && listStarts as bs

/-- SQL LIKE with wildcards on both sides: the needle occurs inside the hay. -/
def listHasSub : List Char → List Char → Bool
  | n, [] => n.isEmpty
  | n, c :: t => listStarts n (c :: t) || listHasSub n t

/-- Case-insensitive lexicographic comparison used for the title sort. -/
def lexLe : List Char → List Char → Bool
  | [], _ => true
  | _ :: _, [] => false
  | a :: as, b :: bs => if a < b then true else if b < a then false else lexLe as bs

/-! Sort comparators (routers/tasks.py list_tasks, the order_by branches). -/

/-- The CASE expression of the priority sort: high=1, medium=2, low=3, else 4. -/
def prioRank (p : String) : Nat :=
  if p = "high" then 1 else if p = "medium" then 2 else if p = "low" then 3 else 4

/-- due_date sort: asc/desc on the date with NULLS LAST in both directions. -/
def dueLe (ord : Order) (a b : Task) : Bool :=
  match a.due_date, b.due_date with
  | some x, some y => match ord with | .asc => decide (x ≤ y) | .desc => decide (y ≤ x)
  | some _, none => true
  | none, some _ => false
  | none, none => true

/-- priority sort: order=asc sorts the rank descending (low first) and
order=desc sorts the rank ascending (high first). -/
def prioLe (ord : Order) (a b : Task) : Bool :=
  match ord with
  | .asc => decide (prioRank b.priority ≤ prioRank a.priority)
  | .desc => decide (prioRank a.priority ≤ prioRank b.priority)

/-- title sort: case-insensitive lexicographic. -/
def titleLe (ord : Order) (a b : Task) : Bool :=
  match ord with
  | .asc => lexLe (toLowerL a.title) (toLowerL b.title)
  | .desc => lexLe (toLowerL b.title) (toLowerL a.title)

/-- created_at sort (the default when no sort key is given). -/
def createdLe (ord : Order) (a b : Task) : Bool :=
  match ord with
  | .asc => decide (a.created_at ≤ b.created_at)
  | .desc => decide (b.created_at ≤ a.created_at)

/-- Dispatch on the sort literal; anything but the three named keys falls
back to created_at. -/
def sortLe (sort : Option SortKey) (ord : Order) : Task → Task → Bool :=
  match sort with
  | some .due_date => dueLe ord
  | some .priority => prioLe ord
  | some .title => titleLe ord
  | _ => createdLe ord

/-- ORDER BY with a boolean comparator, modelled as an insertion sort. -/
def sortB (f : Task → Task → Bool) (l : List Task) : List Task :=
  @List.insertionSort Task (fun a b => f a b = true)
    (fun a b => instDecidableEqBool (f a b) true) l

/-- GET /api/v1/tasks (routers/tasks.py list_tasks): filter the owner's tasks
by status/priority/tags/search, sort, paginate, and attach the three global
per-owner counts. -/
def listTasks (s : List Task) (u : String) (completed : Option Bool)
    (status : Option Status) (priority : Option String) (tags : Option String)
    (search : Option String) (sort : Option SortKey) (order : Order)
    (limit offset : Nat) : TaskListResponse :=
  let owned := s.filter fun t => t.user_id == u
  -- the elif chain: status "pending"/"completed" filters; otherwise the
  -- legacy completed flag applies when present (also when status is "all")
  let afterStatus :=
    match status, completed with
    | some .pending, _ => owned.filter fun t => !t.completed
    | some .completed, _ => owned.filter fun t => t.completed
    | _, some c => owned.filter fun t => t.completed == c
    | _, none => owned
  let afterPrio :=
    match priority with
    | some p => afterStatus.filter fun t => t.priority == p
    | none => afterStatus
  let afterTags :=
    match tags with
    | some raw =>
      let tagList := ((splitComma raw.data).map trimL).filter fun x => !x.isEmpty
      if tagList.isEmpty then afterPrio
      else afterPrio.filter fun t => tagList.any fun tg => t.tags.any fun x => x.data == tg
    | none => afterPrio
  let afterSearch :=
    match search with
    | some q =>
      let term := (trimL q.data).map Char.toLower
      if term.isEmpty then afterTags
      else afterTags.filter fun t => listHasSub term (toLowerL t.title)
    | none => afterTags
  let sorted := sortB (sortLe sort order) afterSearch
  { tasks := (sorted.drop offset).take limit
    total := owned.length
    pending_count := owned.countP fun t => !t.completed
    completed_count := owned.countP fun t => t.completed }

/-- GET /api/v1/tasks/\x7btask_id\x7d (get_task). -/
def getTask (s : List Task) (u : String) (tid : Nat) : Except Err Task :=
  match findTask s u tid with
  | none => .error .notFound
  | some t => .ok t

/-- Schema for updating a task (models.py TaskUpdate after model_dump with
exclude_unset): each outer Option is "field present in the request body".
For the nullable columns due_date and recurring an inner Option distinguishes
an explicit null from a value. -/
structure TaskUpdate where
  title : Option String := none
  description : Option String := none
  completed : Option Bool := none
  priority : Option String := none
  tags : Option (List String) := none
  due_date : Option (Option DateTime) := none
  recurring : Option (Option String) := none
deriving DecidableEq, Repr

/-- The setattr loop of update_task: apply every present field. -/
def applyUpdate (t : Task) (d : TaskUpdate) : Task :=
  { t with
    title := d.title.getD t.title
    description := d.description.getD t.description
    completed := d.completed.getD t.completed
    priority := d.priority.getD t.priority
    tags := d.tags.getD t.tags
    due_date := d.due_date.getD t.due_date
    recurring := d.recurring.getD t.recurring }

/-- PATCH /api/v1/tasks/\x7btask_id\x7d (update_task): partial update; the
reminder is refreshed only when the request body carries a non-null due_date
(if "due_date" in update_data and data.due_date). -/
def updateTask (s : List Task) (u : String) (tid : Nat) (d : TaskUpdate)
    (now : DateTime) : Except Err (List Task × Task) :=
  match findTask s u tid with
  | none => .error .notFound
  | some t =>
    let t1 := applyUpdate t d
    let t2 :=
      match d.due_date with
      | some (some dd) => { t1 with reminder_at := some (dd - 60) }
      | _ => t1
    let t3 := { t2 with updated_at := some now }
    .ok (replaceFirst (fun x => x.id == tid && x.user_id == u) (fun _ => t3) s, t3)

/-- DELETE /api/v1/tasks/\x7btask_id\x7d (delete_task). -/
def deleteTask (s : List Task) (u : String) (tid : Nat) : Except Err (List Task) :=
  match findTask s u tid with
  | none => .error .notFound
  | some _ => .ok (s.eraseP fun x => x.id == tid && x.user_id == u)

/-- calculate_next_due_date (routers/tasks.py): daily +1 day, weekly +1 week,
monthly +30 fixed days, anything else unchanged.  In minutes. -/
def calculate_next_due_date (current_due : DateTime) (pattern : String) : DateTime :=
  if pattern = "daily" then current_due + 1440
  else if pattern = "weekly" then current_due + 10080
  else if pattern = "monthly" then current_due + 43200
  else current_due

/-- POST /api/v1/tasks/\x7btask_id\x7d/toggle (toggle_task): flip completed;
when the flip lands on completed and the task has a truthy recurring pattern
and a due date, append the next occurrence. -/
def toggleTask (s : List Task) (u : String) (tid : Nat) (now : DateTime)
    (newId : Nat) : Except Err (List Task × Task) :=
  match findTask s u tid with
  | none => .error .notFound
  | some t =>
    let t1 := { t with completed := !t.completed, updated_at := some now }
    let s1 := replaceFirst (fun x => x.id == tid && x.user_id == u) (fun _ => t1) s
    match t1.recurring, t1.due_date with
    | some pat, some dd =>
      if t1.completed && !(pat == "") then
        let nd := calculate_next_due_date dd pat
        let nt : Task :=
          { id := newId, user_id := u, title := t1.title
            description := t1.description, completed := false, created_at := now
            updated_at := none, priority := t1.priority, tags := t1.tags
            due_date := some nd, reminder_at := some (nd - 60)
            recurring := t1.recurring, recurring_parent_id := some t1.id }
        .ok (s1 ++ [nt], t1)
      else .ok (s1, t1)
    | _, _ => .ok (s1, t1)

/-- PATCH /api/v1/tasks/\x7btask_id\x7d/due-date (update_due_date): set the
due date; derive the reminder when the new date is non-null and set_reminder
holds, otherwise clear it. -/
def updateDueDate (s : List Task) (u : String) (tid : Nat)
    (due_date : Option DateTime) (set_reminder : Bool)
    (reminder_minutes_before : Int) (now : DateTime) :
    Except Err (List Task × Task) :=
  match findTask s u tid with
  | none => .error .notFound
  | some t =>
    let t1 := { t with due_date := due_date }
    let t2 :=
      match due_date with
      | some dd =>
        if set_reminder then { t1 with reminder_at := some (dd - reminder_minutes_before) }
        else { t1 with reminder_at := none }
      | none => { t1 with reminder_at := none }
    let t3 := { t2 with updated_at := some now }
    .ok (replaceFirst (fun x => x.id == tid && x.user_id == u) (fun _ => t3) s, t3)

/-! Strict validators (models.py, pydantic field validators). -/

/-- TaskCreate.validate_priority: reject anything outside high|medium|low. -/
def TaskCreate.validate_priority (v : String) : Except String String :=
  if !(["high", "medium", "low"].contains v) then
    .error "Priority must be high, medium, or low"
  else .ok v

/-- TaskCreate.validate_recurring: when present, reject anything outside
daily|weekly|monthly. -/
def TaskCreate.validate_recurring (v : Option String) : Except String (Option String) :=
  match v with
  | some r =>
    if !(["daily", "weekly", "monthly"].contains r) then
      .error "Recurring must be daily, weekly, or monthly"
    else .ok (some r)
  | none => .ok none

/-- TaskUpdate.validate_priority: when present, reject anything outside
high|medium|low. -/
def TaskUpdate.validate_priority (v : Option String) : Except String (Option String) :=
  match v with
  | some p =>
    if !(["high", "medium", "low"].contains p) then
      .error "Priority must be high, medium, or low"
    else .ok (some p)
  | none => .ok none

/-- TaskUpdate.validate_recurring: when present, reject anything outside
daily|weekly|monthly. -/
def TaskUpdate.validate_recurring (v : Option String) : Except String (Option String) :=
  match v with
  | some r =>
    if !(["daily", "weekly", "monthly"].contains r) then
      .error "Recurring must be daily, weekly, or monthly"
    else .ok (some r)
  | none => .ok none

/-! Lenient tool surface (mcp/tools.py). -/

/-- add_task's priority check: silently coerce anything unknown to medium. -/
def mcpCoercePriority (priority : String) : String :=
  if !(["high", "medium", "low"].contains priority) then "medium" else priority

/-- add_task's recurring check: if recurring is truthy and unknown, drop it
to None.  A falsy value (None or the empty string) is kept as given. -/
def mcpCoerceRecurring (recurring : Option String) : Option String :=
  match recurring with
  | some r =>
    if !(r == "") && !(["daily", "weekly", "monthly"].contains r) then none
    else some r
  | none => none

/-- Result dict of add_task (the always-present keys). -/
structure AddTaskResult where
  task_id : Nat
  status : String
  title : String
  priority : String
deriving DecidableEq, Repr

/-- add_task (mcp/tools.py): lenient create.  The ISO due_date string is
modelled as an already-parsed Option DateTime; an unparsable string returns
an error dict before any store write and is not modelled. -/
def addTaskMCP (s : List Task) (u : String) (title description : String)
    (priority : String) (tags : Option (List String)) (due_date : Option DateTime)
    (recurring : Option String) (now : DateTime) (newId : Nat) :
    List Task × AddTaskResult :=
  let reminder_at := due_date.map fun d => d - 60
  let prio := mcpCoercePriority priority
  let recur := mcpCoerceRecurring recurring
  let task : Task :=
    { id := newId, user_id := u, title := title, description := description
      completed := false, created_at := now, updated_at := none
      priority := prio, tags := tags.getD []
      due_date := due_date, reminder_at := reminder_at
      recurring := recur, recurring_parent_id := none }
  (s ++ [task], { task_id := newId, status := "created", title := title, priority := prio })

/-- Result dict of complete_task. -/
inductive CompleteResult where
  | notFound
  | done (task_id : Nat) (title : String)
  | doneSpawned (task_id : Nat) (title : String) (next_task_id : Nat)
      (next_due_date : DateTime)
deriving DecidableEq, Repr

/-- complete_task (mcp/tools.py): set completed=True unconditionally; when
the task has a truthy recurring pattern and a due date, append the next
occurrence — there is no check that the task was pending. -/
def completeTaskMCP (s : List Task) (u : String) (tid : Nat) (now : DateTime)
    (newId : Nat) : List Task × CompleteResult :=
  match findTask s u tid with
  | none => (s, .notFound)
  | some t =>
    let t1 := { t with completed := true, updated_at := some now }
    let s1 := replaceFirst (fun x => x.id == tid && x.user_id == u) (fun _ => t1) s
    match t1.recurring, t1.due_date with
    | some pat, some dd =>
      if !(pat == "") then
        let nd := calculate_next_due_date dd pat
        let nt : Task :=
          { id := newId, user_id := u, title := t1.title
            description := t1.description, completed := false, created_at := now
            updated_at := none, priority := t1.priority, tags := t1.tags
            due_date := some nd, reminder_at := some (nd - 60)
            recurring := t1.recurring, recurring_parent_id := some t1.id }
        (s1 ++ [nt], .doneSpawned tid t1.title newId nd)
      else (s1, .done tid t1.title)
    | _, _ => (s1, .done tid t1.title)

/-- n repeated complete_task calls on the same task id, with a fresh-id
supply for the spawned occurrences. -/
def iterateCompleteMCP (s : List Task) (u : String) (tid : Nat) (now : DateTime)
    (ids : Nat → Nat) : Nat → List Task
  | 0 => s
  | n + 1 => (completeTaskMCP (iterateCompleteMCP s u tid now ids n) u tid now (ids n)).1

/-- Number of occurrence records spawned from the task with the given id. -/
def countOccurrences (s : List Task) (tid : Nat) : Nat :=
  s.countP fun t => t.recurring_parent_id == some tid

/-! Concrete records used to evaluate the operations on small inputs. -/

/-- A minimal pending task owned by user "u". -/
def baseTask : Task :=
  { id := 0, user_id := "u", title := "t", description := "", completed := false
    created_at := 0, updated_at := none, priority := "medium", tags := []
    due_date := none, reminder_at := none, recurring := none
    recurring_parent_id := none }

/-- A task with a due date and the derived reminder one hour before. -/
def c1Task : Task :=
  { baseTask with id := 1, due_date := some 1000, reminder_at := some 940 }

/-- A PATCH body that explicitly sets due_date to null. -/
def c1Upd : TaskUpdate := { due_date := some none }

/-- A pending task, for the status-filter experiment. -/
def c3Task : Task := { baseTask with id := 1 }

/-- A pending weekly-recurring task with a due date. -/
def c4Task : Task :=
  { baseTask with id := 1, recurring := some "weekly", due_date := some 2000 }

/-- A task owned by alice, for cross-owner lookups. -/
def c8Task : Task := { baseTask with id := 5, user_id := "alice" }

/-- An already-completed daily-recurring task with a due date. -/
def c10Task : Task :=
  { baseTask with id := 1, completed := true, recurring := some "daily"
                  due_date := some 3000 }

/-- Low/high/medium-priority tasks for the priority-sort example. -/
def c7Store : List Task :=
  [{ baseTask with id := 1, priority := "low" },
   { baseTask with id := 2, priority := "high" },
   { baseTask with id := 3, priority := "medium" }]

/-- Tasks with due dates 2024-02-01, none, 2024-01-01 (in model minutes:
200, none, 100) for the due-date-sort example. -/
def c6Store : List Task :=
  [{ baseTask with id := 1, due_date := some 200 },
   { baseTask with id := 2, due_date := none },
   { baseTask with id := 3, due_date := some 100 }]

/-! Helper lemmas. -/

theorem length_replaceFirst (p : Task → Bool) (f : Task → Task) (s : List Task) :
    (replaceFirst p f s).length = s.length := by
  induction s with
  | nil => rfl
  | cons a as ih =>
    simp only [replaceFirst]
    split <;> simp [ih]

theorem find?_replaceFirst (p : Task → Bool) (f : Task → Task) (s : List Task)
    (t : Task) (h : s.find? p = some t) (hf : p (f t) = true) :
    (replaceFirst p f s).find? p = some (f t) := by
  induction s with
  | nil => simp at h
  | cons a as ih =>
    by_cases hp : p a
    · rw [List.find?_cons_of_pos _ hp] at h
      injection h with h
      subst h
      simp [replaceFirst, hp, List.find?_cons_of_pos _ hf]
    · rw [List.find?_cons_of_neg _ hp] at h
      simp [replaceFirst, hp, List.find?_cons_of_neg _ hp, ih h]

theorem find?_append_left {p : Task → Bool} {l₁ l₂ : List Task} {a : Task}
    (h : l₁.find? p = some a) : (l₁ ++ l₂).find? p = some a := by
  rw [List.find?_append, h]
  rfl

theorem countP_replaceFirst (q p : Task → Bool) (f : Task → Task) (s : List Task)
    (t : Task) (h : s.find? p = some t) (hq : q (f t) = q t) :
    (replaceFirst p f s).countP q = s.countP q := by
  induction s with
  | nil => simp at h
  | cons a as ih =>
    by_cases hp : p a
    · rw [List.find?_cons_of_pos _ hp] at h
      injection h with h
      subst h
      simp [replaceFirst, hp, List.countP_cons, hq]
    · rw [List.find?_cons_of_neg _ hp] at h
      simp [replaceFirst, hp, List.countP_cons, ih h]

theorem nat_eq_add_one_iff_false (n : Nat) : n = n + 1 ↔ False :=
  iff_false_intro (by omega)

theorem countP_concat_true (q : Task → Bool) (l : List Task) (a : Task)
    (h : q a = true) : (l ++ [a]).countP q = l.countP q + 1 := by
  simp [List.countP_append, List.countP_cons, h]

theorem countP_not_completed_add (l : List Task) :
    (l.countP fun t => !t.completed) + (l.countP fun t => t.completed) = l.length := by
  induction l with
  | nil => rfl
  | cons a as ih =>
    by_cases h : a.completed = true <;>
      simp [List.countP_cons, h] <;> omega

theorem sortB_pairwise (f : Task → Task → Bool)
    (htot : ∀ a b, f a b = true ∨ f b a = true)
    (htr : ∀ a b c, f a b = true → f b c = true → f a c = true)
    (l : List Task) : (sortB f l).Pairwise fun a b => f a b = true := by
  have inst1 : IsTotal Task fun a b => f a b = true := ⟨htot⟩
  have inst2 : IsTrans Task fun a b => f a b = true := ⟨htr⟩
  exact @List.sorted_insertionSort Task (fun a b => f a b = true)
    (fun a b => instDecidableEqBool (f a b) true) inst1 inst2 l

theorem dueLe_total (ord : Order) (a b : Task) :
    dueLe ord a b = true ∨ dueLe ord b a = true := by
  unfold dueLe
  cases hda : a.due_date <;> cases hdb : b.due_date <;> cases ord <;> simp
  · exact Int.le_total _ _
  · exact Int.le_total _ _

theorem dueLe_trans (ord : Order) (a b c : Task) (h1 : dueLe ord a b = true)
    (h2 : dueLe ord b c = true) : dueLe ord a c = true := by
  unfold dueLe at *
  cases hda : a.due_date <;> cases hdb : b.due_date <;> cases hdc : c.due_date <;>
    cases ord <;> simp_all
  · exact Int.le_trans h1 h2
  · exact Int.le_trans h2 h1

theorem prioLe_total (ord : Order) (a b : Task) :
    prioLe ord a b = true ∨ prioLe ord b a = true := by
  unfold prioLe
  cases ord <;> simp <;> omega

theorem prioLe_trans (ord : Order) (a b c : Task) (h1 : prioLe ord a b = true)
    (h2 : prioLe ord b c = true) : prioLe ord a c = true := by
  unfold prioLe at *
  cases ord <;> simp_all <;> omega

/-- C2: for every owner and every combination of status/priority/tags/search
filters and pagination arguments, the listTasks result satisfies
pending_count + completed_count = total, all three counts equal the counts
over the owner's entire task set, and the counts do not change when the
filter/sort/pagination arguments change. -/
theorem claim_c2 (s : List Task) (u : String)
    (c₁ c₂ : Option Bool) (st₁ st₂ : Option Status)
    (p₁ p₂ tg₁ tg₂ se₁ se₂ : Option String)
    (so₁ so₂ : Option SortKey) (o₁ o₂ : Order) (l₁ l₂ of₁ of₂ : Nat) :
    (listTasks s u c₁ st₁ p₁ tg₁ se₁ so₁ o₁ l₁ of₁).pending_count
        + (listTasks s u c₁ st₁ p₁ tg₁ se₁ so₁ o₁ l₁ of₁).completed_count
      = (listTasks s u c₁ st₁ p₁ tg₁ se₁ so₁ o₁ l₁ of₁).total ∧
    (listTasks s u c₁ st₁ p₁ tg₁ se₁ so₁ o₁ l₁ of₁).total
      = (s.filter fun t => t.user_id == u).length ∧
    (listTasks s u c₁ st₁ p₁ tg₁ se₁ so₁ o₁ l₁ of₁).pending_count
      = ((s.filter fun t => t.user_id == u).countP fun t => !t.completed) ∧
    (listTasks s u c₁ st₁ p₁ tg₁ se₁ so₁ o₁ l₁ of₁).completed_count
      = ((s.filter fun t => t.user_id == u).countP fun t => t.completed) ∧
    (listTasks s u c₁ st₁ p₁ tg₁ se₁ so₁ o₁ l₁ of₁).total
      = (listTasks s u c₂ st₂ p₂ tg₂ se₂ so₂ o₂ l₂ of₂).total ∧
    (listTasks s u c₁ st₁ p₁ tg₁ se₁ so₁ o₁ l₁ of₁).pending_count
      = (listTasks s u c₂ st₂ p₂ tg₂ se₂ so₂ o₂ l₂ of₂).pending_count ∧
    (listTasks s u c₁ st₁ p₁ tg₁ se₁ so₁ o₁ l₁ of₁).completed_count
      = (listTasks s u c₂ st₂ p₂ tg₂ se₂ so₂ o₂ l₂ of₂).completed_count :=
  ⟨countP_not_completed_add _, rfl, rfl, rfl, rfl, rfl, rfl⟩

/-- C3 counterexample: with status=all and the legacy boolean completed=true
supplied together, the returned items ARE filtered by the legacy boolean (a
pending task disappears), while dropping the boolean returns it — so the
legacy boolean is not ignored when status=all. -/
theorem claim_c3_counterexample :
    (listTasks [c3Task] "u" (some true) (some .all) none none none none
      .desc 50 0).tasks = [] ∧
    (listTasks [c3Task] "u" none (some .all) none none none none
      .desc 50 0).tasks = [c3Task] := by
  constructor <;> rfl

/-- C3 amended: when the status enum is pending or completed it determines
the status filtering and the legacy boolean is ignored; when the status enum
is all, the call behaves exactly as if no status enum were supplied, so the
legacy boolean is applied. -/
theorem claim_c3_amended (s : List Task) (u : String) (c₁ c₂ : Option Bool)
    (p tg se : Option String) (so : Option SortKey) (o : Order) (l of : Nat) :
    listTasks s u c₁ (some .pending) p tg se so o l of
      = listTasks s u c₂ (some .pending) p tg se so o l of ∧
    listTasks s u c₁ (some .completed) p tg se so o l of
      = listTasks s u c₂ (some .completed) p tg se so o l of ∧
    listTasks s u c₁ (some .all) p tg se so o l of
      = listTasks s u c₁ none p tg se so o l of := by
  refine ⟨?_, ?_, ?_⟩ <;> cases c₁ <;> cases c₂ <;> rfl

/-- C8: getTask, updateTask and deleteTask all return the single error kind
NotFound whenever no task in the store has the requested id AND owner — which
covers both a nonexistent id and an id owned by a different owner, with
literally identical results in the two cases. -/
theorem claim_c8 (s : List Task) (u : String) (tid : Nat) (d : TaskUpdate)
    (now : DateTime) (h : ∀ t ∈ s, ¬(t.id = tid ∧ t.user_id = u)) :
    getTask s u tid = .error .notFound ∧
    updateTask s u tid d now = .error .notFound ∧
    deleteTask s u tid = .error .notFound := by
  have hf : findTask s u tid = none := by
    apply List.find?_eq_none.mpr
    intro x hx hxp
    simp only [Bool.and_eq_true, beq_iff_eq] at hxp
    exact h x hx hxp
  simp [getTask, updateTask, deleteTask, hf]

/-- C8 witness: a store holding alice's task 5; bob looking up id 5 (owner
mismatch) and alice looking up id 9 (nonexistent) both get NotFound from all
three operations. -/
theorem claim_c8_witness :
    (getTask [c8Task] "bob" 5 = .error .notFound ∧
     updateTask [c8Task] "bob" 5 {} 0 = .error .notFound ∧
     deleteTask [c8Task] "bob" 5 = .error .notFound) ∧
    (getTask [c8Task] "alice" 9 = .error .notFound ∧
     updateTask [c8Task] "alice" 9 {} 0 = .error .notFound ∧
     deleteTask [c8Task] "alice" 9 = .error .notFound) :=
  ⟨claim_c8 [c8Task] "bob" 5 {} 0 (by decide),
   claim_c8 [c8Task] "alice" 9 {} 0 (by decide)⟩

/-- C1 counterexample: a PATCH update that explicitly sets due_date to null
clears due_date but leaves reminder_at untouched, so after the update
reminder_at is still set (940) while due_date is gone — the operation that
cleared due_date did not clear reminder_at, and the invariant is broken. -/
theorem claim_c1_counterexample :
    updateTask [c1Task] "u" 1 c1Upd 5 =
      .ok ([{ c1Task with due_date := none, updated_at := some 5 }],
           { c1Task with due_date := none, updated_at := some 5 }) ∧
    ({ c1Task with due_date := none, updated_at := some 5 }).due_date = none ∧
    ({ c1Task with due_date := none, updated_at := some 5 }).reminder_at
      = some 940 := by
  refine ⟨?_, rfl, rfl⟩
  rfl

/-- C1 amended: the set-due-date operation with a null due date clears
reminder_at, but updateTask with due_date=null clears due_date while leaving
reminder_at exactly as it was — so the derived-reminder invariant holds
through setDueDate but is not maintained by updateTask. -/
theorem claim_c1_amended (s : List Task) (u : String) (tid : Nat) (t : Task)
    (d : TaskUpdate) (sr : Bool) (mins : Int) (now : DateTime)
    (h : findTask s u tid = some t) (hd : d.due_date = some none) :
    (∃ s' r, updateTask s u tid d now = .ok (s', r) ∧ r.due_date = none ∧
      r.reminder_at = t.reminder_at) ∧
    (∃ s' r, updateDueDate s u tid none sr mins now = .ok (s', r) ∧
      r.due_date = none ∧ r.reminder_at = none) := by
  constructor
  · unfold updateTask
    rw [h, hd]
    exact ⟨_, _, rfl, by simp [applyUpdate, hd], rfl⟩
  · unfold updateDueDate
    rw [h]
    exact ⟨_, _, rfl, rfl, rfl⟩

/-- C1 witness: the amended statement evaluated on a task with due=1000 and
reminder=940, patched with an explicit null due date. -/
theorem claim_c1_witness :
    (∃ s' r, updateTask [c1Task] "u" 1 c1Upd 5 = .ok (s', r) ∧
      r.due_date = none ∧ r.reminder_at = c1Task.reminder_at) ∧
    (∃ s' r, updateDueDate [c1Task] "u" 1 none true 60 5 = .ok (s', r) ∧
      r.due_date = none ∧ r.reminder_at = none) :=
  claim_c1_amended [c1Task] "u" 1 c1Task c1Upd true 60 5 (by decide) (by decide)

/-- C9 counterexample: the empty string is outside {daily, weekly, monthly};
the strict validator rejects it, but the lenient add_task stores it verbatim
(recurring = some "") rather than storing none, because the coercion is
guarded by Python truthiness. -/
theorem claim_c9_counterexample :
    TaskCreate.validate_recurring (some "") =
      .error "Recurring must be daily, weekly, or monthly" ∧
    ((addTaskMCP [] "u" "t" "" "medium" none none (some "") 0 1).1.map
      fun t => t.recurring) = [some ""] := by
  constructor <;> rfl

/-- C9 amended: for every priority outside {high, medium, low} the strict
create/update validators reject while the lenient add_task stores medium;
for every recurring value outside {daily, weekly, monthly} the strict
validators reject while the lenient add_task stores none when the value is
non-empty and stores the empty string as given when it is empty. -/
theorem claim_c9_amended (p r : String) (s : List Task) (u ttl dsc : String)
    (tags : Option (List String)) (due : Option DateTime) (now : DateTime)
    (nid : Nat) (hp : p ∉ ["high", "medium", "low"])
    (hr : r ∉ ["daily", "weekly", "monthly"]) :
    TaskCreate.validate_priority p
      = .error "Priority must be high, medium, or low" ∧
    TaskUpdate.validate_priority (some p)
      = .error "Priority must be high, medium, or low" ∧
    TaskCreate.validate_recurring (some r)
      = .error "Recurring must be daily, weekly, or monthly" ∧
    TaskUpdate.validate_recurring (some r)
      = .error "Recurring must be daily, weekly, or monthly" ∧
    (∃ nt, (addTaskMCP s u ttl dsc p tags due (some r) now nid).1 = s ++ [nt] ∧
      (addTaskMCP s u ttl dsc p tags due (some r) now nid).2.status = "created" ∧
      nt.priority = "medium" ∧
      nt.recurring = (if r = "" then some "" else none)) := by
  have hp' : (["high", "medium", "low"].contains p) = false := by simpa using hp
  have hr' : (["daily", "weekly", "monthly"].contains r) = false := by simpa using hr
  refine ⟨?_, ?_, ?_, ?_, ⟨_, rfl, rfl, ?_, ?_⟩⟩
  · simp [TaskCreate.validate_priority, hp]
  · simp [TaskUpdate.validate_priority, hp]
  · simp [TaskCreate.validate_recurring, hr]
  · simp [TaskUpdate.validate_recurring, hr]
  · show mcpCoercePriority p = "medium"
    simp [mcpCoercePriority, hp]
  · show mcpCoerceRecurring (some r) = (if r = "" then some "" else none)
    by_cases hre : r = "" <;> simp [mcpCoerceRecurring, hr, hre]

/-- C9 witness: the amended statement evaluated at priority "urgent" and
recurring "yearly". -/
theorem claim_c9_witness :
    TaskCreate.validate_priority "urgent"
      = .error "Priority must be high, medium, or low" ∧
    TaskUpdate.validate_priority (some "urgent")
      = .error "Priority must be high, medium, or low" ∧
    TaskCreate.validate_recurring (some "yearly")
      = .error "Recurring must be daily, weekly, or monthly" ∧
    TaskUpdate.validate_recurring (some "yearly")
      = .error "Recurring must be daily, weekly, or monthly" ∧
    (∃ nt, (addTaskMCP [] "u" "t" "" "urgent" none none (some "yearly") 0 1).1
        = [] ++ [nt] ∧
      (addTaskMCP [] "u" "t" "" "urgent" none none (some "yearly") 0 1).2.status
        = "created" ∧
      nt.priority = "medium" ∧
      nt.recurring = (if ("yearly" : String) = "" then some "" else none)) :=
  claim_c9_amended "urgent" "yearly" [] "u" "t" "" none none 0 1
    (by decide) (by decide)

/-- C4: completing (toggling) a pending task with a recurring pattern and a
due date appends exactly one occurrence whose due date is the source due
date plus 1 day (daily), 7 days (weekly) or 30 fixed days (monthly) — in
model minutes 1440, 10080, 43200 — and which copies title, description,
priority, tags and recurring verbatim, points recurring_parent_id at the
source task, and starts with completed=false. -/
theorem claim_c4 (s : List Task) (u : String) (tid : Nat) (now : DateTime)
    (newId : Nat) (t : Task) (d : DateTime) (p : String)
    (h : findTask s u tid = some t) (hc : t.completed = false)
    (hd : t.due_date = some d) (hr : t.recurring = some p)
    (hp : p = "daily" ∨ p = "weekly" ∨ p = "monthly") :
    ∃ s' nt, toggleTask s u tid now newId =
        .ok (s', { t with completed := true, updated_at := some now }) ∧
      s'.getLast? = some nt ∧ s'.length = s.length + 1 ∧
      nt.title = t.title ∧ nt.description = t.description ∧
      nt.priority = t.priority ∧ nt.tags = t.tags ∧
      nt.recurring = t.recurring ∧ nt.recurring_parent_id = some t.id ∧
      nt.completed = false ∧
      nt.due_date = some (d + (if p = "daily" then 1440
        else if p = "weekly" then 10080 else 43200)) := by
  have hpe : (p == "") = false := by
    rcases hp with h1 | h1 | h1 <;> subst h1 <;> rfl
  simp only [toggleTask, h, hr, hd, hc, hpe, Bool.not_false, Bool.and_self]
  refine ⟨_, _, rfl, List.getLast?_concat _, ?_, rfl, rfl, rfl, rfl, rfl, rfl,
    rfl, ?_⟩
  · simp [length_replaceFirst]
  · rcases hp with h1 | h1 | h1 <;> subst h1 <;> rfl

/-- C4 witness: a pending weekly task due at 2000 spawns an occurrence due
at 2000 + 10080 with all fields copied. -/
theorem claim_c4_witness :
    ∃ s' nt, toggleTask [c4Task] "u" 1 7 42 =
        .ok (s', { c4Task with completed := true, updated_at := some 7 }) ∧
      s'.getLast? = some nt ∧ s'.length = [c4Task].length + 1 ∧
      nt.title = c4Task.title ∧ nt.description = c4Task.description ∧
      nt.priority = c4Task.priority ∧ nt.tags = c4Task.tags ∧
      nt.recurring = c4Task.recurring ∧
      nt.recurring_parent_id = some c4Task.id ∧ nt.completed = false ∧
      nt.due_date = some (2000 + (if ("weekly" : String) = "daily" then 1440
        else if ("weekly" : String) = "weekly" then 10080 else 43200)) :=
  claim_c4 [c4Task] "u" 1 7 42 c4Task 2000 "weekly" (by decide) (by decide)
    (by decide) (by decide) (Or.inr (Or.inl rfl))

/-- C5: a toggle spawns a new record if and only if it moves the task from
pending to completed AND the task has a (Python-truthy, i.e. non-empty —
per the spec an empty string means "no recurrence") recurring pattern AND a
due date; toggling completed back to pending, toggling a non-recurring
task, and toggling a recurring task without a due date never change the
store size. -/
theorem claim_c5 (s : List Task) (u : String) (tid : Nat) (now : DateTime)
    (newId : Nat) (t : Task) (h : findTask s u tid = some t) :
    ∃ s' t', toggleTask s u tid now newId = .ok (s', t') ∧
      s'.length = s.length
        + (if !t.completed && (pyTruthyStr t.recurring && t.due_date.isSome)
           then 1 else 0) ∧
      (s'.length = s.length + 1 ↔
        (t.completed = false ∧ pyTruthyStr t.recurring = true ∧
          t.due_date.isSome = true)) := by
  simp only [toggleTask, h]
  rcases hr : t.recurring with _ | pat
  · rcases hdd : t.due_date with _ | dd <;>
      exact ⟨_, _, rfl,
        by simp [length_replaceFirst, pyTruthyStr, nat_eq_add_one_iff_false],
        by simp [length_replaceFirst, pyTruthyStr, nat_eq_add_one_iff_false]⟩
  · rcases hdd : t.due_date with _ | dd
    · exact ⟨_, _, rfl,
        by simp [length_replaceFirst, pyTruthyStr, nat_eq_add_one_iff_false],
        by simp [length_replaceFirst, pyTruthyStr, nat_eq_add_one_iff_false]⟩
    · by_cases hc : t.completed
      · simp only [hc]
        exact ⟨_, _, rfl,
          by simp [length_replaceFirst, pyTruthyStr, nat_eq_add_one_iff_false],
          by simp [length_replaceFirst, pyTruthyStr, nat_eq_add_one_iff_false]⟩
      · have hc' : t.completed = false := by simpa using hc
        simp only [hc']
        by_cases hpe : pat = ""
        · subst hpe
          exact ⟨_, _, rfl,
            by simp [length_replaceFirst, pyTruthyStr, nat_eq_add_one_iff_false],
            by simp [length_replaceFirst, pyTruthyStr, nat_eq_add_one_iff_false]⟩
        · have hpe' : (pat == "") = false := by simpa using hpe
          simp only [hpe']
          exact ⟨_, _, rfl,
            by simp [length_replaceFirst, pyTruthyStr, hpe'],
            by simp [length_replaceFirst, pyTruthyStr, hpe']⟩

/-- C5 witness: toggling the pending weekly task with a due date grows the
store by one; the iff holds with both sides true. -/
theorem claim_c5_witness :
    ∃ s' t', toggleTask [c4Task] "u" 1 7 42 = .ok (s', t') ∧
      s'.length = [c4Task].length
        + (if !c4Task.completed && (pyTruthyStr c4Task.recurring
              && c4Task.due_date.isSome) then 1 else 0) ∧
      (s'.length = [c4Task].length + 1 ↔
        (c4Task.completed = false ∧ pyTruthyStr c4Task.recurring = true ∧
          c4Task.due_date.isSome = true)) :=
  claim_c5 [c4Task] "u" 1 7 42 c4Task (by decide)

theorem completeTaskMCP_step (s : List Task) (u : String) (tid : Nat)
    (now : DateTime) (nid : Nat) (t : Task) (pat : String) (d : DateTime)
    (h : findTask s u tid = some t) (hr : t.recurring = some pat)
    (hpe : (pat == "") = false) (hd : t.due_date = some d) :
    findTask (completeTaskMCP s u tid now nid).1 u tid
      = some { t with completed := true, updated_at := some now } ∧
    countOccurrences (completeTaskMCP s u tid now nid).1 tid
      = countOccurrences s tid + 1 ∧
    (completeTaskMCP s u tid now nid).2
      = .doneSpawned tid t.title nid (calculate_next_due_date d pat) := by
  have hpt := @List.find?_some Task (fun x => x.id == tid && x.user_id == u) t s h
  have hid : t.id = tid := by
    simp only [Bool.and_eq_true, beq_iff_eq] at hpt
    exact hpt.1
  have hpt' : (t.id == tid && t.user_id == u) = true := by
    simp only [Bool.and_eq_true, beq_iff_eq] at hpt ⊢
    exact hpt
  simp only [completeTaskMCP, h, hr, hd, hpe, Bool.not_false, if_true]
  refine ⟨?_, ?_, trivial⟩
  · exact find?_append_left
      (find?_replaceFirst _ _ s t h hpt')
  · unfold countOccurrences
    rw [countP_concat_true]
    · rw [countP_replaceFirst (fun x => x.recurring_parent_id == some tid)
        _ _ s t h rfl]
    · simp [hid]

/-- C10: calling the tool-surface complete_task on a task that is already
completed and has a (non-empty) recurring pattern and a due date succeeds
and spawns yet another occurrence — the spawn is conditioned only on the
recurring and due_date fields — so n repeated calls create n occurrence
records pointing at the task. -/
theorem claim_c10 (s : List Task) (u : String) (tid : Nat) (now : DateTime)
    (ids : Nat → Nat) (t : Task) (pat : String) (d : DateTime)
    (h : findTask s u tid = some t) (hcomp : t.completed = true)
    (hr : t.recurring = some pat) (hpe : (pat == "") = false)
    (hd : t.due_date = some d) :
    (∀ nid, (completeTaskMCP s u tid now nid).2
        = .doneSpawned tid t.title nid (calculate_next_due_date d pat)) ∧
    ∀ n, countOccurrences (iterateCompleteMCP s u tid now ids n) tid
        = countOccurrences s tid + n := by
  constructor
  · intro nid
    exact (completeTaskMCP_step s u tid now nid t pat d h hr hpe hd).2.2
  · have inv : ∀ n, ∃ t',
        findTask (iterateCompleteMCP s u tid now ids n) u tid = some t' ∧
        t'.recurring = some pat ∧ t'.due_date = some d ∧
        countOccurrences (iterateCompleteMCP s u tid now ids n) tid
          = countOccurrences s tid + n := by
      intro n
      induction n with
      | zero => exact ⟨t, h, hr, hd, rfl⟩
      | succ n ih =>
        obtain ⟨t', h', hr', hd', hcount⟩ := ih
        obtain ⟨hfind, hcnt, _⟩ := completeTaskMCP_step
          (iterateCompleteMCP s u tid now ids n) u tid now (ids n) t' pat d
          h' hr' hpe hd'
        refine ⟨_, hfind, hr', hd', ?_⟩
        show countOccurrences
          (completeTaskMCP (iterateCompleteMCP s u tid now ids n) u tid now
            (ids n)).1 tid = countOccurrences s tid + (n + 1)
        rw [hcnt, hcount]
        omega
    intro n
    exact (inv n).choose_spec.2.2.2

/-- C10 witness: three repeated complete_task calls on an already-completed
daily task with a due date create three occurrence records, and a single
call reports the spawned task. -/
theorem claim_c10_witness :
    (∀ nid, (completeTaskMCP [c10Task] "u" 1 9 nid).2
        = .doneSpawned 1 c10Task.title nid (calculate_next_due_date 3000 "daily")) ∧
    ∀ n, countOccurrences (iterateCompleteMCP [c10Task] "u" 1 9 (fun k => 100 + k) n) 1
        = countOccurrences [c10Task] 1 + n :=
  claim_c10 [c10Task] "u" 1 9 (fun k => 100 + k) c10Task "daily" 3000
    (by decide) (by decide) (by decide) (by decide) (by decide)

theorem dueLe_imp_asc (a b : Task) (hab : dueLe .asc a b = true) :
    (match a.due_date, b.due_date with
     | some x, some y => x ≤ y
     | none, some _ => False
     | _, _ => True) := by
  unfold dueLe at hab
  cases hda : a.due_date <;> cases hdb : b.due_date <;> simp_all

theorem dueLe_imp_desc (a b : Task) (hab : dueLe .desc a b = true) :
    (match a.due_date, b.due_date with
     | some x, some y => y ≤ x
     | none, some _ => False
     | _, _ => True) := by
  unfold dueLe at hab
  cases hda : a.due_date <;> cases hdb : b.due_date <;> simp_all

/-- C6: for every owner's task list, sorting listTasks by due_date puts
every task without a due date after every task with one in both directions,
dated tasks are chronological for asc and reverse-chronological for desc,
and on the store with dues {200, none, 100} asc returns [100, 200, none]
and desc returns [200, 100, none]. -/
theorem claim_c6 (s : List Task) (u : String) (c : Option Bool)
    (st : Option Status) (p tg se : Option String) (l of : Nat) :
    ((listTasks s u c st p tg se (some .due_date) .asc l of).tasks).Pairwise
      (fun a b => match a.due_date, b.due_date with
        | some x, some y => x ≤ y
        | none, some _ => False
        | _, _ => True) ∧
    ((listTasks s u c st p tg se (some .due_date) .desc l of).tasks).Pairwise
      (fun a b => match a.due_date, b.due_date with
        | some x, some y => y ≤ x
        | none, some _ => False
        | _, _ => True) ∧
    ((listTasks c6Store "u" none none none none none (some .due_date) .asc
      50 0).tasks).map (fun t => t.due_date) = [some 100, some 200, none] ∧
    ((listTasks c6Store "u" none none none none none (some .due_date) .desc
      50 0).tasks).map (fun t => t.due_date) = [some 200, some 100, none] := by
  refine ⟨?_, ?_, ?_, ?_⟩
  · exact List.Pairwise.imp (fun hab => dueLe_imp_asc _ _ hab)
      (List.Pairwise.sublist
        ((List.take_sublist _ _).trans (List.drop_sublist _ _))
        (sortB_pairwise (dueLe .asc) (dueLe_total .asc) (dueLe_trans .asc) _))
  · exact List.Pairwise.imp (fun hab => dueLe_imp_desc _ _ hab)
      (List.Pairwise.sublist
        ((List.take_sublist _ _).trans (List.drop_sublist _ _))
        (sortB_pairwise (dueLe .desc) (dueLe_total .desc) (dueLe_trans .desc) _))
  · decide
  · decide

theorem prioLe_imp_desc (a b : Task) (h : prioLe .desc a b = true) :
    prioRank a.priority ≤ prioRank b.priority := by
  simpa [prioLe] using h

theorem prioLe_imp_asc (a b : Task) (h : prioLe .asc a b = true) :
    prioRank b.priority ≤ prioRank a.priority := by
  simpa [prioLe] using h

/-- C7: the priority sort uses the fixed rank high=1, medium=2, low=3;
order=desc returns tasks in non-decreasing rank (high first) and order=asc
in non-increasing rank (low first); on a store with priorities
{low, high, medium}, desc returns [high, medium, low]. -/
theorem claim_c7 (s : List Task) (u : String) (c : Option Bool)
    (st : Option Status) (p tg se : Option String) (l of : Nat) :
    prioRank "high" = 1 ∧ prioRank "medium" = 2 ∧ prioRank "low" = 3 ∧
    ((listTasks s u c st p tg se (some .priority) .desc l of).tasks).Pairwise
      (fun a b => prioRank a.priority ≤ prioRank b.priority) ∧
    ((listTasks s u c st p tg se (some .priority) .asc l of).tasks).Pairwise
      (fun a b => prioRank b.priority ≤ prioRank a.priority) ∧
    ((listTasks c7Store "u" none none none none none (some .priority) .desc
      50 0).tasks).map (fun t => t.priority) = ["high", "medium", "low"] := by
  refine ⟨rfl, rfl, rfl, ?_, ?_, ?_⟩
  · exact List.Pairwise.imp (fun hab => prioLe_imp_desc _ _ hab)
      (List.Pairwise.sublist
        ((List.take_sublist _ _).trans (List.drop_sublist _ _))
        (sortB_pairwise (prioLe .desc) (prioLe_total .desc) (prioLe_trans .desc) _))
  · exact List.Pairwise.imp (fun hab => prioLe_imp_asc _ _ hab)
      (List.Pairwise.sublist
        ((List.take_sublist _ _).trans (List.drop_sublist _ _))
        (sortB_pairwise (prioLe .asc) (prioLe_total .asc) (prioLe_trans .asc) _))
  · decide

end TodoApi
